import Mathlib

/-
  A shallow embedding of src/backend/src/call/approval_persistence.rs.

  The Rust module keeps an in-memory set of approved user ids
  (ApprovedUsers) and write-behind persists it to a frontend endpoint.
  We model the struct state directly; the spawned tokio task is modelled
  by a JoinHandle record whose completion fields are advanced by an
  environment step (TaskStep), and tick reads them exactly as the Rust
  code reads JoinHandle.is_finished / now_or_never.  The jitter value
  rand::random in [0,1) and the tokio-runtime availability
  (Handle.try_current) are passed as explicit parameters.  Side effects
  (event! counters, error!/warn! logs, the launched HTTP request) are
  returned as an Output list.
-/

set_option autoImplicit false

namespace ApprovalPersistence

abbrev UserId := String
abbrev RoomId := String

/-- PERSISTENCE_TIMEOUT = Duration.from_secs 10, in seconds. -/
def PERSISTENCE_TIMEOUT : ℚ := 10

/-- MINIMUM_REQUEST_INTERVAL = Duration.from_millis 100, in seconds. -/
def MINIMUM_REQUEST_INTERVAL : ℚ := 1 / 10

/-- The serde body struct FlatApprovedUsers: the JSON object with a single
field approvedUsers holding the set membership (serde serializes the
HashSet in unspecified order, so we keep the set itself). -/
structure FlatApprovedUsers where
  approved_users : Finset UserId
deriving DecidableEq

/-- PersistenceMode from the source, without the cfg-test Callback
variant (it exists only in the test build). -/
inductive PersistenceMode
  | Off
  | Uri (uri : String) (room_id : RoomId)
deriving DecidableEq

/-- The From impl for Option of (Uri, RoomId). -/
def PersistenceMode.fromOption : Option (String × RoomId) → PersistenceMode
  | some (uri, room_id) => .Uri uri room_id
  | none => .Off

/-- How the network exchange of a spawned attempt can end, before the
task maps it to a StatusCode: the local 10s timeout fires first, a
response with some HTTP status arrives, or the hyper client fails to
complete the exchange at all (connection error). -/
inductive TransportOutcome
  | timedOut
  | response (status : Nat)
  | connError
deriving DecidableEq

/-- The StatusCode the spawned task returns for each transport outcome,
mirroring the select! in spawn: local timeout gives REQUEST_TIMEOUT
(408), Ok(r) gives r.status(), Err(err) is logged and mapped to
INTERNAL_SERVER_ERROR (500). -/
def attemptStatus : TransportOutcome → Nat
  | .timedOut => 408
  | .response s => s
  | .connError => 500

/-- What JoinHandle.now_or_never yields once finished: Ok(status) if the
task ran to completion, Err(JoinError) if it was cancelled or panicked. -/
inductive JoinOutcome
  | ok (status : Nat)
  | joinErr
deriving DecidableEq

/-- The tracked tokio JoinHandle plus the data the spawned task owns:
the serialized body (taken at launch) and the optional start delay.
finished models is_finished; result models what now_or_never would
yield (none while unfinished, and none in the anomalous case where a
finished handle fails now_or_never). -/
structure JoinHandle where
  finished : Bool
  result : Option JoinOutcome
  body : FlatApprovedUsers
  wait : Option ℚ
deriving DecidableEq

/-- The HTTP request built in spawn for PersistenceMode.Uri: a PUT to
the uri with an X-Room-Id header, a JSON Content-type header, and the
serialized FlatApprovedUsers body. -/
structure PutRequest where
  method : String
  uri : String
  room_id_header : RoomId
  content_type_header : String
  body : FlatApprovedUsers
deriving DecidableEq

/-- Observable side effects: event! counters (success, error,
too_many_retries), the warn!/error! logs, the debug! in spawn, and the
launched request. -/
inductive Output
  | eventSuccess
  | eventError
  | eventTooManyRetries
  | warnNoRuntime
  | debugSpawning (count : Nat)
  | errorPersistStatus (status : Nat)
  | errorInternalFailure
  | errorAnomaly
  | request (r : PutRequest)
deriving DecidableEq

/-- The struct ApprovedUsers.  retry_count is a u8; its increment in
tick is taken mod 256. -/
structure ApprovedUsers where
  set : Finset UserId
  future : Option JoinHandle
  modified : Bool
  persistence_mode : PersistenceMode
  retry_count : Nat
deriving DecidableEq

/-- ApprovedUsers.new. -/
def ApprovedUsers.new (users : List UserId)
    (uri_and_room_id : Option (String × RoomId)) : ApprovedUsers :=
  { set := users.toFinset
    future := none
    modified := false
    persistence_mode := PersistenceMode.fromOption uri_and_room_id
    retry_count := 0 }

/-- ApprovedUsers.contains. -/
def ApprovedUsers.contains (s : ApprovedUsers) (v : UserId) : Bool :=
  v ∈ s.set

/-- The handle spawn stores for a newly launched task: not yet
finished, owning the body serialized from the current set, with the
given start delay. -/
def spawnedHandle (s : ApprovedUsers) (wait : Option ℚ) : JoinHandle :=
  { finished := false
    result := none
    body := { approved_users := s.set }
    wait := wait }

/-- The request the spawned task sends in PersistenceMode.Uri. -/
def spawnRequest (s : ApprovedUsers) (uri : String) (room_id : RoomId) : PutRequest :=
  { method := "PUT"
    uri := uri
    room_id_header := room_id
    content_type_header := "application/json"
    body := { approved_users := s.set } }

/-- ApprovedUsers.spawn.  rt models Handle.try_current().is_ok(); wait
is the optional start delay in seconds.  Returns the updated state and
the emitted outputs. -/
def ApprovedUsers.spawn (s : ApprovedUsers) (rt : Bool) (wait : Option ℚ) :
    ApprovedUsers × List Output :=
  match s.persistence_mode with
  | .Off => (s, [])
  | .Uri uri room_id =>
    if rt = false then
      (s, [.warnNoRuntime])
    else
      ({ s with future := some (spawnedHandle s wait) },
       [.debugSpawning s.set.card, .request (spawnRequest s uri room_id)])

/-- The private method modified() of the source (named modifiedNotify
here because the struct field is already called modified): if an
unfinished attempt is in flight, just set the modified flag; otherwise
reset retry_count and spawn a fresh attempt with no delay. -/
def ApprovedUsers.modifiedNotify (s : ApprovedUsers) (rt : Bool) :
    ApprovedUsers × List Output :=
  match s.future with
  | some f =>
    if f.finished = false then
      ({ s with modified := true }, [])
    else
      ({ s with retry_count := 0 }).spawn rt none
  | none => ({ s with retry_count := 0 }).spawn rt none

/-- ApprovedUsers.insert: HashSet.insert returns whether the value was
newly added; only then is modifiedNotify triggered. -/
def ApprovedUsers.insert (s : ApprovedUsers) (v : UserId) (rt : Bool) :
    ApprovedUsers × Bool × List Output :=
  if v ∈ s.set then
    (s, false, [])
  else
    let p := ({ s with set := Insert.insert v s.set }).modifiedNotify rt
    (p.1, true, p.2)

/-- ApprovedUsers.remove: HashSet.remove returns whether the value was
present; only then is modifiedNotify triggered. -/
def ApprovedUsers.remove (s : ApprovedUsers) (v : UserId) (rt : Bool) :
    ApprovedUsers × Bool × List Output :=
  if v ∈ s.set then
    let p := ({ s with set := s.set.erase v }).modifiedNotify rt
    (p.1, true, p.2)
  else
    (s, false, [])

/-- ApprovedUsers.is_busy. -/
def ApprovedUsers.is_busy (s : ApprovedUsers) : Bool :=
  s.future.isSome

/-- The classification match in tick: maps the now_or_never result to
needs_retry plus the emitted event!/error! outputs.  Ok(OK) counts the
success event and needs no retry; Ok(other) counts the error event,
logs, and needs a retry; Err(JoinError) and the anomalous None are
logged and need no retry. -/
def classify : Option JoinOutcome → Bool × List Output
  | some (.ok st) =>
    if st = 200 then
      (false, [.eventSuccess])
    else
      (true, [.eventError, .errorPersistStatus st])
  | some .joinErr => (false, [.errorInternalFailure])
  | none => (false, [.errorAnomaly])

/-- Prepend the classification outputs to the outputs of a subsequent
spawn. -/
def withLogs (pre : List Output) (p : ApprovedUsers × List Output) :
    ApprovedUsers × List Output :=
  (p.1, pre ++ p.2)

/-- The dirty branch of the post-classification scheduling in tick:
clear modified, reset retry_count, spawn immediately.  s0 is the state
after the finished future was taken. -/
def ApprovedUsers.tickDirty (s0 : ApprovedUsers) (rt : Bool) :
    ApprovedUsers × List Output :=
  ({ s0 with modified := false, retry_count := 0 }).spawn rt none

/-- The needs_retry branch of the post-classification scheduling in
tick: increment retry_count (a u8); if it exceeds 3, emit the
too_many_retries event and stop; otherwise spawn again after the
jittered exponential backoff delay 2 ^ retry_count * (1 + u) seconds. -/
def ApprovedUsers.tickRetry (s0 : ApprovedUsers) (rt : Bool) (u : ℚ) :
    ApprovedUsers × List Output :=
  if (s0.retry_count + 1) % 256 > 3 then
    ({ s0 with retry_count := (s0.retry_count + 1) % 256 }, [.eventTooManyRetries])
  else
    ({ s0 with retry_count := (s0.retry_count + 1) % 256 }).spawn rt
      (some ((2 ^ ((s0.retry_count + 1) % 256) : ℚ) * (1 + u)))

/-- ApprovedUsers.tick.  u is the rand::random jitter in [0,1); rt is
runtime availability for any spawn performed inside.  Follows the
source: take the future; if unfinished, put it back unchanged; if
finished, classify now_or_never, then run the post-classification
scheduling (dirty respawn, retry/give-up, or fall back to idle). -/
def ApprovedUsers.tick (s : ApprovedUsers) (rt : Bool) (u : ℚ) :
    ApprovedUsers × List Output :=
  match s.future with
  | none => (s, [])
  | some f =>
    if f.finished = true then
      if s.modified = true then
        withLogs (classify f.result).2
          (ApprovedUsers.tickDirty { s with future := none } rt)
      else if (classify f.result).1 = true then
        withLogs (classify f.result).2
          (ApprovedUsers.tickRetry { s with future := none } rt u)
      else
        ({ s with future := none }, (classify f.result).2)
    else
      (s, [])

/-- How the environment may advance a spawned task between driver
operations: the exchange settles to some transport outcome and the task
runs to completion, or the task is cancelled or panics (JoinError), or
the anomalous tokio case where the finished handle yields nothing. -/
inductive TaskStep : JoinHandle → JoinHandle → Prop
  | finish (f : JoinHandle) (o : TransportOutcome) :
      TaskStep f { f with finished := true, result := some (.ok (attemptStatus o)) }
  | abandoned (f : JoinHandle) :
      TaskStep f { f with finished := true, result := some .joinErr }
  | anomaly (f : JoinHandle) :
      TaskStep f { f with finished := true, result := none }

/-- Reachable driver states: any construction, then any interleaving of
insert, remove, tick (with jitter in [0,1)) and environment task
steps. -/
inductive Reachable : ApprovedUsers → Prop
  | init (users : List UserId) (cfg : Option (String × RoomId)) :
      Reachable (ApprovedUsers.new users cfg)
  | insertStep (s : ApprovedUsers) (v : UserId) (rt : Bool) :
      Reachable s → Reachable (s.insert v rt).1
  | removeStep (s : ApprovedUsers) (v : UserId) (rt : Bool) :
      Reachable s → Reachable (s.remove v rt).1
  | tickStep (s : ApprovedUsers) (rt : Bool) (u : ℚ) :
      Reachable s → 0 ≤ u → u < 1 → Reachable (s.tick rt u).1
  | taskStep (s : ApprovedUsers) (f f2 : JoinHandle) :
      Reachable s → s.future = some f → TaskStep f f2 →
      Reachable { s with future := some f2 }

/-! ### Helper lemmas -/

theorem spawn_fst_cases (s : ApprovedUsers) (rt : Bool) (w : Option ℚ) :
    (s.spawn rt w).1 = s ∨
    (s.spawn rt w).1 = { s with future := some (spawnedHandle s w) } := by
  unfold ApprovedUsers.spawn
  split
  · exact Or.inl rfl
  · split
    · exact Or.inl rfl
    · exact Or.inr rfl

theorem spawn_uri (s : ApprovedUsers) (uri : String) (room : RoomId) (w : Option ℚ)
    (hmode : s.persistence_mode = .Uri uri room) :
    s.spawn true w =
      ({ s with future := some (spawnedHandle s w) },
       [Output.debugSpawning s.set.card, Output.request (spawnRequest s uri room)]) := by
  unfold ApprovedUsers.spawn
  rw [hmode]
  simp

theorem modifiedNotify_inflight (s : ApprovedUsers) (rt : Bool) (f : JoinHandle)
    (hf : s.future = some f) (hfin : f.finished = false) :
    s.modifiedNotify rt = ({ s with modified := true }, []) := by
  unfold ApprovedUsers.modifiedNotify
  rw [hf]
  simp [hfin]

theorem modifiedNotify_idle (s : ApprovedUsers) (rt : Bool)
    (hf : s.future = none) :
    s.modifiedNotify rt = ({ s with retry_count := 0 }).spawn rt none := by
  unfold ApprovedUsers.modifiedNotify
  rw [hf]

theorem modifiedNotify_finished (s : ApprovedUsers) (rt : Bool) (f : JoinHandle)
    (hf : s.future = some f) (hfin : f.finished = true) :
    s.modifiedNotify rt = ({ s with retry_count := 0 }).spawn rt none := by
  unfold ApprovedUsers.modifiedNotify
  rw [hf]
  simp [hfin]

theorem tick_finished_eq (s : ApprovedUsers) (f : JoinHandle) (rt : Bool) (u : ℚ)
    (hf : s.future = some f) (hfin : f.finished = true) :
    s.tick rt u =
      (if s.modified = true then
        withLogs (classify f.result).2
          (ApprovedUsers.tickDirty { s with future := none } rt)
      else if (classify f.result).1 = true then
        withLogs (classify f.result).2
          (ApprovedUsers.tickRetry { s with future := none } rt u)
      else
        ({ s with future := none }, (classify f.result).2)) := by
  unfold ApprovedUsers.tick
  rw [hf]
  simp [hfin]

/-- The driver state invariant of the spec's data model section: the
modified flag is set only while a future is tracked, and a state with a
tracked future has spent at most 3 retries. -/
def Inv (s : ApprovedUsers) : Prop :=
  (s.modified = true → s.future.isSome = true) ∧
  (s.future.isSome = true → s.retry_count ≤ 3)

theorem spawn_inv (s : ApprovedUsers) (rt : Bool) (w : Option ℚ)
    (h1 : s.modified = true → s.future.isSome = true)
    (h2 : s.retry_count ≤ 3) :
    Inv ((s.spawn rt w).1) := by
  rcases spawn_fst_cases s rt w with hs | hs <;> rw [hs]
  · exact ⟨h1, fun _ => h2⟩
  · exact ⟨fun _ => rfl, fun _ => h2⟩

theorem modifiedNotify_inv (s : ApprovedUsers) (rt : Bool) (h : Inv s) :
    Inv ((s.modifiedNotify rt).1) := by
  obtain ⟨h1, h2⟩ := h
  unfold ApprovedUsers.modifiedNotify
  split
  · rename_i f hf
    split
    · refine ⟨fun _ => ?_, fun _ => ?_⟩
      · show s.future.isSome = true
        rw [hf]; rfl
      · exact h2 (by rw [hf]; rfl)
    · exact spawn_inv _ rt none (fun _ => h1 (by assumption)) (Nat.zero_le 3)
  · exact spawn_inv _ rt none (fun _ => h1 (by assumption)) (Nat.zero_le 3)

theorem insert_inv (s : ApprovedUsers) (v : UserId) (rt : Bool) (h : Inv s) :
    Inv ((s.insert v rt).1) := by
  unfold ApprovedUsers.insert
  split
  · exact h
  · exact modifiedNotify_inv _ rt ⟨h.1, h.2⟩

theorem remove_inv (s : ApprovedUsers) (v : UserId) (rt : Bool) (h : Inv s) :
    Inv ((s.remove v rt).1) := by
  unfold ApprovedUsers.remove
  split
  · exact modifiedNotify_inv _ rt ⟨h.1, h.2⟩
  · exact h

theorem tickDirty_inv (s0 : ApprovedUsers) (rt : Bool) :
    Inv ((s0.tickDirty rt).1) := by
  unfold ApprovedUsers.tickDirty
  exact spawn_inv _ rt none (fun hm => by simp at hm) (Nat.zero_le 3)

theorem tickRetry_inv (s0 : ApprovedUsers) (rt : Bool) (u : ℚ)
    (hm : s0.modified = false) (hf : s0.future = none) :
    Inv ((s0.tickRetry rt u).1) := by
  unfold ApprovedUsers.tickRetry
  split
  · refine ⟨fun h => ?_, fun h => ?_⟩ <;> simp [hm, hf] at h
  · rename_i hrc
    exact spawn_inv _ rt _ (fun h => by simp [hm] at h) (Nat.not_lt.mp hrc)

theorem tick_inv (s : ApprovedUsers) (rt : Bool) (u : ℚ) (h : Inv s) :
    Inv ((s.tick rt u).1) := by
  unfold ApprovedUsers.tick
  split
  · exact h
  · rename_i f hf
    split
    · split
      · exact tickDirty_inv _ rt
      · rename_i hmod
        split
        · exact tickRetry_inv _ rt u (by simp at hmod; exact hmod) rfl
        · refine ⟨fun hm2 => ?_, fun hs2 => ?_⟩ <;> simp_all
    · exact h

theorem reachable_inv (s : ApprovedUsers) (h : Reachable s) : Inv s := by
  induction h with
  | init users cfg =>
    exact ⟨fun hm => by simp [ApprovedUsers.new] at hm,
           fun hs => by simp [ApprovedUsers.new] at hs⟩
  | insertStep s v rt _ ih => exact insert_inv s v rt ih
  | removeStep s v rt _ ih => exact remove_inv s v rt ih
  | tickStep s rt u _ _ _ ih => exact tick_inv s rt u ih
  | taskStep s f f2 _ hf _ ih =>
    exact ⟨fun _ => rfl, fun _ => ih.2 (by rw [hf]; rfl)⟩

theorem spawn_retry_count (s : ApprovedUsers) (rt : Bool) (w : Option ℚ) :
    (s.spawn rt w).1.retry_count = s.retry_count := by
  rcases spawn_fst_cases s rt w with h | h <;> rw [h]

theorem tickRetry_retry_count (s0 : ApprovedUsers) (rt : Bool) (u : ℚ) :
    (s0.tickRetry rt u).1.retry_count = (s0.retry_count + 1) % 256 := by
  unfold ApprovedUsers.tickRetry
  split
  · rfl
  · rw [spawn_retry_count]

theorem tickDirty_retry_count (s0 : ApprovedUsers) (rt : Bool) :
    (s0.tickDirty rt).1.retry_count = 0 := by
  unfold ApprovedUsers.tickDirty
  rw [spawn_retry_count]

/-! ### Concrete states shared by witnesses and counterexamples

A driver for one room with a real endpoint: constructed empty, one user
inserted (which launches the first attempt), and then various ways the
environment can settle that attempt. -/

def exUri : String := "http://frontend.example/approved"

def exRoom : RoomId := "room1"

def exUser : UserId := "user"

def exUser2 : UserId := "other-user"

def s0ex : ApprovedUsers := ApprovedUsers.new [] (some (exUri, exRoom))

def s1ex : ApprovedUsers := (s0ex.insert exUser true).1

/-- The handle tracked right after the first insert spawned its attempt. -/
def s1exHandle : JoinHandle :=
  { finished := false
    result := none
    body := { approved_users := {exUser} }
    wait := none }

theorem s0ex_reachable : Reachable s0ex :=
  Reachable.init [] (some (exUri, exRoom))

theorem s1ex_reachable : Reachable s1ex :=
  Reachable.insertStep s0ex exUser true s0ex_reachable

theorem s1ex_future : s1ex.future = some s1exHandle := by decide

/-- The first attempt settled with the hyper client failing to complete
the exchange (connection error): the task logs and returns 500. -/
def connErrHandle : JoinHandle :=
  { s1exHandle with finished := true, result := some (.ok (attemptStatus .connError)) }

def sConnErr : ApprovedUsers := { s1ex with future := some connErrHandle }

theorem sConnErr_reachable : Reachable sConnErr :=
  Reachable.taskStep s1ex s1exHandle connErrHandle s1ex_reachable s1ex_future
    (TaskStep.finish s1exHandle .connError)

/-- The first attempt settled with a non-OK HTTP response (500). -/
def failHandle : JoinHandle :=
  { s1exHandle with finished := true, result := some (.ok (attemptStatus (.response 500))) }

def sFail : ApprovedUsers := { s1ex with future := some failHandle }

theorem sFail_reachable : Reachable sFail :=
  Reachable.taskStep s1ex s1exHandle failHandle s1ex_reachable s1ex_future
    (TaskStep.finish s1exHandle (.response 500))

/-- The first attempt was cancelled or panicked: now_or_never yields a
JoinError. -/
def joinErrHandle : JoinHandle :=
  { s1exHandle with finished := true, result := some .joinErr }

def sJoinErr : ApprovedUsers := { s1ex with future := some joinErrHandle }

theorem sJoinErr_reachable : Reachable sJoinErr :=
  Reachable.taskStep s1ex s1exHandle joinErrHandle s1ex_reachable s1ex_future
    (TaskStep.abandoned s1exHandle)

/-- The state after tick reaped the failed attempt and scheduled the
first retry (with jitter 0 the delay is 2 seconds). -/
def sRetrying : ApprovedUsers := (sFail.tick true 0).1

theorem sRetrying_reachable : Reachable sRetrying :=
  Reachable.tickStep sFail true 0 sFail_reachable le_rfl (by norm_num)

/-- The retry attempt as spawned: delay 2 ^ 1 * (1 + 0) = 2 seconds
(the wait field keeps the expression exactly as tick computes it). -/
def retryHandle : JoinHandle :=
  { finished := false
    result := none
    body := { approved_users := {exUser} }
    wait := some ((2 ^ ((0 + 1) % 256) : ℚ) * (1 + 0)) }

theorem sRetrying_future : sRetrying.future = some retryHandle := rfl

theorem sRetrying_retry_count : sRetrying.retry_count = 1 := by decide

/-- The retry attempt settled with HTTP 200. -/
def okHandle : JoinHandle :=
  { retryHandle with finished := true, result := some (.ok (attemptStatus (.response 200))) }

def sOkAfterRetry : ApprovedUsers := { sRetrying with future := some okHandle }

theorem sOkAfterRetry_reachable : Reachable sOkAfterRetry :=
  Reachable.taskStep sRetrying retryHandle okHandle sRetrying_reachable
    sRetrying_future (TaskStep.finish retryHandle (.response 200))

/-- A second user inserted while the first attempt is still in flight:
only the modified flag is set. -/
def sMut : ApprovedUsers := (s1ex.insert exUser2 true).1

theorem sMut_reachable : Reachable sMut :=
  Reachable.insertStep s1ex exUser2 true s1ex_reachable

/-- The first attempt then settles with a non-OK response while the
modified flag is set. -/
def sDirty : ApprovedUsers := { sMut with future := some failHandle }

theorem sDirty_reachable : Reachable sDirty :=
  Reachable.taskStep sMut s1exHandle failHandle sMut_reachable (by decide)
    (TaskStep.finish s1exHandle (.response 500))

/-! ### Claims -/

/-- Claim C1, counterexample.  The claim says a transport-level failure
(connection error) is treated as non-retryable by tick: retry_count
left unchanged and no new attempt scheduled.  In the code the spawned
task maps a connection error to StatusCode 500, which tick classifies
as Ok(other), a retryable failure: at the reachable state sConnErr,
tick increments retry_count from 0 to 1 and launches a new delayed
attempt. -/
theorem C1_counterexample :
    sConnErr.retry_count = 0 ∧
    (sConnErr.tick true 0).1.retry_count = 1 ∧
    Output.request (spawnRequest sConnErr exUri exRoom) ∈ (sConnErr.tick true 0).2 := by
  refine ⟨rfl, by decide, ?_⟩
  decide

/-- Claim C1 (amended): an attempt whose exchange could not complete at
all is mapped by the task to status 500 and is therefore treated by
tick as retryable (retry_count incremented) like any non-OK response;
the outcome that tick treats as non-retryable is the join-level failure
(the background task was cancelled or panicked): it is logged, the
retry count is left unchanged, and no new attempt is scheduled from it. -/
theorem C1_transport_vs_join (s : ApprovedUsers) (f : JoinHandle) (rt : Bool) (u : ℚ)
    (hf : s.future = some f) (hfin : f.finished = true) (hm : s.modified = false) :
    (f.result = some (.ok (attemptStatus .connError)) →
       (s.tick rt u).1.retry_count = (s.retry_count + 1) % 256) ∧
    (f.result = some JoinOutcome.joinErr →
       s.tick rt u = ({ s with future := none }, [Output.errorInternalFailure])) := by
  rw [tick_finished_eq s f rt u hf hfin]
  constructor
  · intro hres
    rw [hres]
    simp only [classify, attemptStatus, hm]
    norm_num [withLogs, tickRetry_retry_count]
  · intro hres
    rw [hres]
    simp [classify, hm]

/-- Witness for C1: at the concrete reachable state sJoinErr whose
attempt ended in a JoinError, tick only logs and goes idle. -/
theorem C1_witness :
    sJoinErr.tick true 0 = ({ sJoinErr with future := none }, [Output.errorInternalFailure]) :=
  (C1_transport_vs_join sJoinErr joinErrHandle true 0 (by decide) (by decide)
    (by decide)).2 (by decide)

/-- Claim C2, counterexample.  The claim says retry_count equals 0
immediately after tick processes a successful response.  In the code
the Ok(OK) branch does not touch retry_count; it is only reset on the
dirty path or by the next mutation.  At the reachable state
sOkAfterRetry (a first failure, one retry, then success), tick emits
the success event yet leaves retry_count at 1. -/
theorem C2_counterexample :
    (sOkAfterRetry.tick true 0).2 = [Output.eventSuccess] ∧
    (sOkAfterRetry.tick true 0).1.retry_count = 1 := by
  constructor <;> decide

/-- Claim C2 (amended): retry_count is reset to 0 whenever a mutation
starts a fresh attempt (notification with no unfinished in-flight
attempt) and whenever tick reaps a finished attempt with the modified
flag set; after tick processes a successful response with no pending
mutation, retry_count is left unchanged (it is reset only when the next
attempt starts). -/
theorem C2_retry_count_reset (s : ApprovedUsers) (rt : Bool) (u : ℚ) (f : JoinHandle) :
    (s.future = none → (s.modifiedNotify rt).1.retry_count = 0) ∧
    (s.future = some f → f.finished = true →
       (s.modifiedNotify rt).1.retry_count = 0) ∧
    (s.future = some f → f.finished = true → s.modified = true →
       (s.tick rt u).1.retry_count = 0) ∧
    (s.future = some f → f.finished = true → f.result = some (.ok 200) →
       s.modified = false → (s.tick rt u).1.retry_count = s.retry_count) := by
  refine ⟨fun hf => ?_, fun hf hfin => ?_, fun hf hfin hm => ?_, fun hf hfin hres hm => ?_⟩
  · rw [modifiedNotify_idle s rt hf, spawn_retry_count]
  · rw [modifiedNotify_finished s rt f hf hfin, spawn_retry_count]
  · rw [tick_finished_eq s f rt u hf hfin]
    simp only [hm, if_pos]
    show (ApprovedUsers.tickDirty _ rt).1.retry_count = 0
    rw [tickDirty_retry_count]
  · rw [tick_finished_eq s f rt u hf hfin, hres]
    simp [classify, hm]

/-- Witness for C2 (amended): on the freshly constructed driver, a
mutation notification leaves retry_count at 0. -/
theorem C2_witness : (s0ex.modifiedNotify true).1.retry_count = 0 :=
  (C2_retry_count_reset s0ex true 0 s1exHandle).1 rfl

/-- Claim C6: inserting a present identifier and removing an absent one
return false, leave the state (hence the membership) unchanged, and
emit nothing - in particular no notification and no attempt. -/
theorem C6_redundant_mutations (s : ApprovedUsers) (v w : UserId) (rt : Bool)
    (hv : v ∈ s.set) (hw : w ∉ s.set) :
    s.insert v rt = (s, false, []) ∧ s.remove w rt = (s, false, []) := by
  constructor
  · unfold ApprovedUsers.insert
    simp [hv]
  · unfold ApprovedUsers.remove
    simp [hw]

/-- Witness for C6 at the concrete state s1ex. -/
theorem C6_witness :
    s1ex.insert exUser true = (s1ex, false, []) ∧
    s1ex.remove exUser2 true = (s1ex, false, []) :=
  C6_redundant_mutations s1ex exUser exUser2 true (by decide) (by decide)

/-- Claim C9: when there is no tracked future, or the tracked future
is not finished, tick returns the state unchanged (same set, busy flag,
modified flag, retry count and future) and emits nothing.  Tick is a
total function of the current state in this model, which reflects that
it only performs the non-blocking is_finished / now_or_never checks and
never waits on the attempt. -/
theorem C9_tick_noop (s : ApprovedUsers) (rt : Bool) (u : ℚ)
    (h : s.future = none ∨ ∃ f, s.future = some f ∧ f.finished = false) :
    s.tick rt u = (s, []) := by
  unfold ApprovedUsers.tick
  rcases h with h | ⟨f, hf, hfin⟩
  · rw [h]
  · rw [hf]
    simp [hfin]

/-- Witness for C9: on s1ex (attempt in flight, unfinished) tick is a
no-op. -/
theorem C9_witness : s1ex.tick true 0 = (s1ex, []) :=
  C9_tick_noop s1ex true 0 (Or.inr ⟨s1exHandle, by decide, rfl⟩)

/-- Claim C10: construction never starts an attempt: for any initial
membership and any persistence target, the new driver is not busy, the
modified flag is clear, retry_count is 0 and no future is tracked, so
the initial membership is not replicated until the first effective
mutation. -/
theorem C10_new_starts_idle (users : List UserId) (cfg : Option (String × RoomId)) :
    (ApprovedUsers.new users cfg).is_busy = false ∧
    (ApprovedUsers.new users cfg).modified = false ∧
    (ApprovedUsers.new users cfg).retry_count = 0 ∧
    (ApprovedUsers.new users cfg).future = none :=
  ⟨rfl, rfl, rfl, rfl⟩

/-- A mutation that arrives while an unfinished attempt is in flight
leaves the tracked handle untouched (same handle, hence same payload)
and emits nothing. -/
theorem mutation_preserves_inflight (s : ApprovedUsers) (v : UserId) (rt : Bool)
    (f : JoinHandle) (hf : s.future = some f) (hfin : f.finished = false) :
    (s.insert v rt).1.future = some f ∧
    (s.remove v rt).1.future = some f ∧
    (s.insert v rt).2.2 = [] ∧
    (s.remove v rt).2.2 = [] := by
  have hins : (s.insert v rt).1.future = some f ∧ (s.insert v rt).2.2 = [] := by
    unfold ApprovedUsers.insert
    by_cases hv : v ∈ s.set
    · rw [if_pos hv]
      exact ⟨hf, rfl⟩
    · rw [if_neg hv]
      dsimp only
      rw [modifiedNotify_inflight { s with set := Insert.insert v s.set } rt f hf hfin]
      exact ⟨hf, rfl⟩
  have hrem : (s.remove v rt).1.future = some f ∧ (s.remove v rt).2.2 = [] := by
    unfold ApprovedUsers.remove
    by_cases hv : v ∈ s.set
    · rw [if_pos hv]
      dsimp only
      rw [modifiedNotify_inflight { s with set := s.set.erase v } rt f hf hfin]
      exact ⟨hf, rfl⟩
    · rw [if_neg hv]
      exact ⟨hf, rfl⟩
  exact ⟨hins.1, hrem.1, hins.2, hrem.2⟩

/-- Claim C3: a finished retryable attempt (non-OK status, which
includes the 408 local timeout) with no pending mutation makes tick
increment retry_count by exactly 1; if the new count exceeds 3 (the
fourth consecutive failure of the episode) the too_many_retries event
is emitted, no attempt is launched and the driver settles non-busy
until the next mutation; otherwise a new delayed attempt is spawned and
the driver stays busy.  Reachability supplies the invariant
retry_count <= 3 while an attempt is tracked, so the u8 increment never
wraps. -/
theorem C3_retry_increment_give_up (s : ApprovedUsers) (f : JoinHandle) (st : Nat)
    (uri : String) (room : RoomId) (u : ℚ)
    (hreach : Reachable s)
    (hf : s.future = some f) (hfin : f.finished = true)
    (hres : f.result = some (.ok st)) (hst : st ≠ 200)
    (hm : s.modified = false)
    (hmode : s.persistence_mode = .Uri uri room) :
    (s.tick true u).1.retry_count = s.retry_count + 1 ∧
    (s.retry_count + 1 > 3 →
       Output.eventTooManyRetries ∈ (s.tick true u).2 ∧
       (s.tick true u).1.is_busy = false ∧
       ∀ r, Output.request r ∉ (s.tick true u).2) ∧
    (s.retry_count + 1 ≤ 3 →
       (s.tick true u).1.is_busy = true ∧
       Output.request (spawnRequest s uri room) ∈ (s.tick true u).2) := by
  have hrc : s.retry_count ≤ 3 := (reachable_inv s hreach).2 (by rw [hf]; rfl)
  have hmod : (s.retry_count + 1) % 256 = s.retry_count + 1 :=
    Nat.mod_eq_of_lt (by omega)
  have htick : s.tick true u =
      withLogs [Output.eventError, Output.errorPersistStatus st]
        (ApprovedUsers.tickRetry { s with future := none } true u) := by
    rw [tick_finished_eq s f true u hf hfin, hres]
    simp [classify, hst, hm]
  rw [htick]
  refine ⟨?_, fun hgt => ?_, fun hle => ?_⟩
  · show (ApprovedUsers.tickRetry _ true u).1.retry_count = s.retry_count + 1
    rw [tickRetry_retry_count]
    simpa using hmod
  · have h2 : ApprovedUsers.tickRetry { s with future := none } true u =
        ({ s with future := none, retry_count := (s.retry_count + 1) % 256 },
         [Output.eventTooManyRetries]) := by
      unfold ApprovedUsers.tickRetry
      rw [if_pos]
      show (({ s with future := none } : ApprovedUsers).retry_count + 1) % 256 > 3
      simpa [hmod] using hgt
    rw [h2]
    refine ⟨by simp [withLogs], rfl, ?_⟩
    intro r
    simp [withLogs]
  · have hcond : ¬ ((({ s with future := none } : ApprovedUsers).retry_count + 1) % 256 > 3) := by
      simp only [hmod]
      omega
    have h3 : ApprovedUsers.tickRetry { s with future := none } true u =
        ({ s with future := none, retry_count := (s.retry_count + 1) % 256 }).spawn true
          (some ((2 ^ ((s.retry_count + 1) % 256) : ℚ) * (1 + u))) := by
      unfold ApprovedUsers.tickRetry
      rw [if_neg hcond]
    have hmode1 :
        ({ s with future := none, retry_count := (s.retry_count + 1) % 256 } :
          ApprovedUsers).persistence_mode = .Uri uri room := hmode
    rw [h3, spawn_uri _ uri room _ hmode1]
    refine ⟨rfl, ?_⟩
    simp [withLogs, spawnRequest]

/-- Witness for C3 at the reachable state sFail: tick takes retry_count
from 0 to 1 and stays busy. -/
theorem C3_witness :
    (sFail.tick true 0).1.retry_count = sFail.retry_count + 1 ∧
    (sFail.tick true 0).1.is_busy = true := by
  have h := C3_retry_increment_give_up sFail failHandle 500 exUri exRoom 0
    sFail_reachable (by decide) (by decide) (by decide) (by decide) (by decide) (by decide)
  exact ⟨h.1, (h.2.2 (by decide)).1⟩

/-- Claim C4: when tick reaps a finished attempt and the modified flag
is set, then whatever the outcome was, a new attempt starts immediately
(no delay) carrying the current membership as its payload, retry_count
is reset to 0 and the modified flag is cleared. -/
theorem C4_dirty_forces_respawn (s : ApprovedUsers) (f : JoinHandle) (uri : String)
    (room : RoomId) (u : ℚ)
    (hf : s.future = some f) (hfin : f.finished = true) (hm : s.modified = true)
    (hmode : s.persistence_mode = .Uri uri room) :
    (s.tick true u).1.modified = false ∧
    (s.tick true u).1.retry_count = 0 ∧
    (∃ h2, (s.tick true u).1.future = some h2 ∧ h2.finished = false ∧
       h2.body = { approved_users := s.set } ∧ h2.wait = none) ∧
    Output.request (spawnRequest s uri room) ∈ (s.tick true u).2 := by
  have htick : s.tick true u =
      withLogs (classify f.result).2
        (ApprovedUsers.tickDirty { s with future := none } true) := by
    rw [tick_finished_eq s f true u hf hfin]
    simp [hm]
  rw [htick]
  have hd : ApprovedUsers.tickDirty { s with future := none } true =
      ({ s with future := none, modified := false, retry_count := 0 }).spawn true none := by
    unfold ApprovedUsers.tickDirty
    rfl
  have hmode2 :
      ({ s with future := none, modified := false, retry_count := 0 } :
        ApprovedUsers).persistence_mode = .Uri uri room := hmode
  rw [hd, spawn_uri _ uri room none hmode2]
  refine ⟨rfl, rfl, ⟨spawnedHandle ({ s with future := none, modified := false, retry_count := 0 }) none, rfl, rfl, rfl, rfl⟩, ?_⟩
  simp [withLogs, spawnRequest]

/-- Witness for C4 at the reachable state sDirty: membership grew to
two users while the first attempt was in flight; tick relaunches with
the latest snapshot. -/
theorem C4_witness :
    (sDirty.tick true 0).1.modified = false ∧
    (sDirty.tick true 0).1.retry_count = 0 ∧
    Output.request (spawnRequest sDirty exUri exRoom) ∈ (sDirty.tick true 0).2 := by
  have h := C4_dirty_forces_respawn sDirty failHandle exUri exRoom 0
    (by decide) (by decide) (by decide) (by decide)
  exact ⟨h.1, h.2.1, h.2.2.2⟩

/-- Claim C5: in every reachable state the modified flag is set only
while a future is tracked; the tracked future is unique (the state
holds at most one handle); and a mutation arriving while an unfinished
attempt is in flight keeps that same single handle and launches
nothing. -/
theorem C5_at_most_one_inflight (s : ApprovedUsers) (hreach : Reachable s) :
    (s.modified = true → s.future.isSome = true) ∧
    (∀ f g, s.future = some f → s.future = some g → f = g) ∧
    (∀ v rt f, s.future = some f → f.finished = false →
       (s.insert v rt).1.future = some f ∧
       (s.remove v rt).1.future = some f ∧
       (∀ r, Output.request r ∉ (s.insert v rt).2.2) ∧
       (∀ r, Output.request r ∉ (s.remove v rt).2.2)) := by
  refine ⟨(reachable_inv s hreach).1, ?_, ?_⟩
  · intro f g hfeq hgeq
    rw [hfeq] at hgeq
    exact Option.some_injective _ hgeq
  · intro v rt f hfeq hfin
    obtain ⟨h1, h2, h3, h4⟩ := mutation_preserves_inflight s v rt f hfeq hfin
    exact ⟨h1, h2, fun r => by rw [h3]; simp, fun r => by rw [h4]; simp⟩

/-- Witness for C5 at the reachable state s1ex: inserting a second user
during the first in-flight attempt keeps the same handle. -/
theorem C5_witness :
    (s1ex.modified = true → s1ex.future.isSome = true) ∧
    (s1ex.insert exUser2 true).1.future = some s1exHandle := by
  have h := C5_at_most_one_inflight s1ex s1ex_reachable
  exact ⟨h.1, (h.2.2 exUser2 true s1exHandle s1ex_future rfl).1⟩

/-- Claim C7: on a retryable failure whose new retry count n is at most
3, the next attempt is scheduled with delay 2 ^ n * (1 + u) seconds,
which lies in the half-open window from 2 ^ n (inclusive) to
2 ^ (n + 1) (exclusive) for jitter u in [0,1); and an attempt started
by a mutation notification on an idle driver carries no delay at
all. -/
theorem C7_backoff_delay (s : ApprovedUsers) (f : JoinHandle) (st : Nat)
    (uri : String) (room : RoomId) (u : ℚ)
    (hf : s.future = some f) (hfin : f.finished = true)
    (hres : f.result = some (.ok st)) (hst : st ≠ 200) (hm : s.modified = false)
    (hmode : s.persistence_mode = .Uri uri room)
    (hrc : s.retry_count + 1 ≤ 3) (hu0 : 0 ≤ u) (hu1 : u < 1) :
    (∃ h2, (s.tick true u).1.future = some h2 ∧
       h2.wait = some ((2 ^ (s.retry_count + 1) : ℚ) * (1 + u)) ∧
       (2 ^ (s.retry_count + 1) : ℚ) ≤ (2 ^ (s.retry_count + 1) : ℚ) * (1 + u) ∧
       (2 ^ (s.retry_count + 1) : ℚ) * (1 + u) < 2 ^ (s.retry_count + 1 + 1)) ∧
    (∀ s2 : ApprovedUsers, s2.future = none →
       s2.persistence_mode = .Uri uri room →
       ∃ h3, (s2.modifiedNotify true).1.future = some h3 ∧ h3.wait = none) := by
  have hmod : (s.retry_count + 1) % 256 = s.retry_count + 1 :=
    Nat.mod_eq_of_lt (by omega)
  have hpow : (0 : ℚ) < 2 ^ (s.retry_count + 1) := by positivity
  have hle : (2 ^ (s.retry_count + 1) : ℚ) ≤ (2 ^ (s.retry_count + 1) : ℚ) * (1 + u) := by
    have h1 : (2 ^ (s.retry_count + 1) : ℚ) * 1 ≤ (2 ^ (s.retry_count + 1) : ℚ) * (1 + u) :=
      mul_le_mul_of_nonneg_left (by linarith) (le_of_lt hpow)
    simpa using h1
  have hlt : (2 ^ (s.retry_count + 1) : ℚ) * (1 + u) < 2 ^ (s.retry_count + 1 + 1) := by
    have h1 : (2 ^ (s.retry_count + 1) : ℚ) * (1 + u) < (2 ^ (s.retry_count + 1) : ℚ) * 2 :=
      mul_lt_mul_of_pos_left (by linarith) hpow
    calc (2 ^ (s.retry_count + 1) : ℚ) * (1 + u)
        < (2 ^ (s.retry_count + 1) : ℚ) * 2 := h1
      _ = 2 ^ (s.retry_count + 1 + 1) := (pow_succ 2 (s.retry_count + 1)).symm
  constructor
  · have htick : s.tick true u =
        withLogs [Output.eventError, Output.errorPersistStatus st]
          (ApprovedUsers.tickRetry { s with future := none } true u) := by
      rw [tick_finished_eq s f true u hf hfin, hres]
      simp [classify, hst, hm]
    have hcond : ¬ ((({ s with future := none } : ApprovedUsers).retry_count + 1) % 256 > 3) := by
      simp only [hmod]
      omega
    have h3 : ApprovedUsers.tickRetry { s with future := none } true u =
        ({ s with future := none, retry_count := (s.retry_count + 1) % 256 }).spawn true
          (some ((2 ^ ((s.retry_count + 1) % 256) : ℚ) * (1 + u))) := by
      unfold ApprovedUsers.tickRetry
      rw [if_neg hcond]
    have hmode1 :
        ({ s with future := none, retry_count := (s.retry_count + 1) % 256 } :
          ApprovedUsers).persistence_mode = .Uri uri room := hmode
    rw [htick, h3, spawn_uri _ uri room _ hmode1]
    refine ⟨spawnedHandle _ _, rfl, ?_, hle, hlt⟩
    show some ((2 ^ ((s.retry_count + 1) % 256) : ℚ) * (1 + u)) =
      some ((2 ^ (s.retry_count + 1) : ℚ) * (1 + u))
    rw [hmod]
  · intro s2 h2f h2mode
    have h2mode1 : ({ s2 with retry_count := 0 } : ApprovedUsers).persistence_mode =
        .Uri uri room := h2mode
    rw [modifiedNotify_idle s2 true h2f, spawn_uri _ uri room none h2mode1]
    exact ⟨spawnedHandle { s2 with retry_count := 0 } none, rfl, rfl⟩

/-- Witness for C7 at the reachable state sFail with jitter one half:
the first retry delay is 2 ^ 1 * (1 + 1/2) = 3 seconds, inside
[2, 4). -/
theorem C7_witness :
    ∃ h2, (sFail.tick true (1/2)).1.future = some h2 ∧
      h2.wait = some ((2 ^ (sFail.retry_count + 1) : ℚ) * (1 + 1/2)) ∧
      (2 ^ (sFail.retry_count + 1) : ℚ) ≤ (2 ^ (sFail.retry_count + 1) : ℚ) * (1 + 1/2) ∧
      (2 ^ (sFail.retry_count + 1) : ℚ) * (1 + 1/2) < 2 ^ (sFail.retry_count + 1 + 1) :=
  (C7_backoff_delay sFail failHandle 500 exUri exRoom (1/2) (by decide) (by decide)
    (by decide) (by decide) (by decide) (by decide) (by decide) (by norm_num)
    (by norm_num)).1

/-- Claim C8: an attempt launched in endpoint mode sends exactly one
PUT request whose body is the FlatApprovedUsers object holding the set
membership at launch time, with the room-identifier header and the JSON
content-type header; the serialized body is stored in the handle at
launch, and mutations after launch leave the in-flight handle (hence
its payload) untouched. -/
theorem C8_payload_at_launch (s : ApprovedUsers) (uri : String) (room : RoomId)
    (w : Option ℚ) (hmode : s.persistence_mode = .Uri uri room) :
    (s.spawn true w).2 =
      [Output.debugSpawning s.set.card, Output.request (spawnRequest s uri room)] ∧
    (spawnRequest s uri room).method = "PUT" ∧
    (spawnRequest s uri room).room_id_header = room ∧
    (spawnRequest s uri room).content_type_header = "application/json" ∧
    (spawnRequest s uri room).body = { approved_users := s.set } ∧
    (s.spawn true w).1.future = some (spawnedHandle s w) ∧
    (spawnedHandle s w).body = { approved_users := s.set } ∧
    (∀ v rt f, s.future = some f → f.finished = false →
       (s.insert v rt).1.future = some f ∧ (s.remove v rt).1.future = some f) := by
  rw [spawn_uri s uri room w hmode]
  refine ⟨rfl, rfl, rfl, rfl, rfl, rfl, rfl, ?_⟩
  intro v rt f hfeq hfin
  obtain ⟨h1, h2, _, _⟩ := mutation_preserves_inflight s v rt f hfeq hfin
  exact ⟨h1, h2⟩

/-- Witness for C8 at the concrete state s1ex (one user): the launched
request carries exactly that membership. -/
theorem C8_witness :
    (s1ex.spawn true none).2 =
      [Output.debugSpawning s1ex.set.card, Output.request (spawnRequest s1ex exUri exRoom)] ∧
    (spawnRequest s1ex exUri exRoom).body = { approved_users := s1ex.set } := by
  have h := C8_payload_at_launch s1ex exUri exRoom none (by decide)
  exact ⟨h.1, h.2.2.2.2.1⟩

end ApprovalPersistence
